import Mathlib

/-!
Shallow embedding of the proptest strategy core (`src/strategy/traits.rs` and
`src/arbitrary/_std/result.rs`).

A Rust `ValueTree` implementation is modelled as a dictionary of its three
observable operations over an explicit state type `σ`: `current` reads the
value, while `simplify` and `complicate` take `&mut self`, which we render as
functions from the state to a `Bool` (the returned flag) paired with the
successor state.  A Rust `Strategy` is modelled as that dictionary together
with `new_value`, which takes `&mut TestRunner` (an abstract runner state `ρ`)
and returns `Result<Self::Value, String>`; the mutation of the runner is made
explicit by returning the successor runner alongside the result.

`check_strategy_sanity` is translated loop by loop.  The Rust code counts
`num_complications`/`num_simplifies` upward and panics when a counter exceeds
65536; we carry the equivalent remaining budget (starting at 65536 and
panicking when one more `true` arrives with the budget at zero), which makes
the recursion structural and the definitions executable.  Panics and failed
`assert!`/`assert_eq!` macros are modelled as `Except.error` outcomes carrying
a `SanityFailure` tag naming the assertion that fired.
-/

namespace Proptest

/-- The observable interface of a Rust `ValueTree` implementation
(`trait ValueTree`, src/strategy/traits.rs): `current`, `simplify`,
`complicate`, with `&mut self` rendered as explicit state passing. -/
structure ValueTree (σ α : Type) where
  current : σ → α
  simplify : σ → Bool × σ
  complicate : σ → Bool × σ

/-- The observable interface of a Rust `Strategy` implementation
(`trait Strategy`, src/strategy/traits.rs): the value-tree dictionary for the
trees it produces, plus `new_value : &mut TestRunner -> Result<Value, String>`. -/
structure Strategy (ρ σ α : Type) where
  tree : ValueTree σ α
  new_value : ρ → Except String σ × ρ

/-- The ways `check_strategy_sanity` can abort a run: the `unwrap()` of a
failed `new_value`, each `assert!`/`assert_eq!` in the function body, and the
two explicit infinite-loop panics. -/
inductive SanityFailure : Type
  | unwrapPanic (msg : String)
  | strictComplicateFalse
  | complicateLoopPanic
  | roundTripMismatch
  | complicateChangedOutput
  | complicateTrueAfterFalse
  | simplifyLoopPanic
  | simplifyChangedOutput
  | simplifyTrueAfterFalse
  deriving DecidableEq

/-- Options passed to `check_strategy_sanity()` (struct
`CheckStrategySanityOptions`). -/
structure CheckStrategySanityOptions where
  strict_complicate_after_simplify : Bool
  _non_exhaustive : Unit

/-- `impl Default for CheckStrategySanityOptions`:
`strict_complicate_after_simplify` defaults to `true`. -/
def CheckStrategySanityOptions.default : CheckStrategySanityOptions :=
  { strict_complicate_after_simplify := true, _non_exhaustive := () }

/-- The inner `loop` of `check_strategy_sanity` that drives
`complicated.complicate()` until it returns `false`.  `prev` is
`prev_complicated` (re-cloned after every `true` return), `cur` is
`complicated`.  The Rust code increments `num_complications` and panics once
it exceeds 65536; `budget` is the remaining allowance of `true` returns, so a
`true` arriving with `budget = 0` is the 65537th consecutive `true` and
triggers the possible-infinite-loop panic. -/
def complicateLoopFrom {σ α : Type} (t : ValueTree σ α) :
    σ → σ → Nat → Except SanityFailure (σ × σ)
  | prev, cur, budget =>
    match t.complicate cur with
    | (false, cur') => Except.ok (prev, cur')
    | (true, cur') =>
      match budget with
      | 0 => Except.error SanityFailure.complicateLoopPanic
      | b + 1 => complicateLoopFrom t cur' cur' b

/-- The `for iter in 1..16` loop of `check_strategy_sanity`: 15 iterations,
each first asserting that `current()` still equals `prev_complicated`'s
`current()` and then asserting that one more `complicate()` call returns
`false`. -/
def complicateStabilityLoop {σ α : Type} [DecidableEq α] (t : ValueTree σ α)
    (prev : σ) : σ → Nat → Except SanityFailure Unit
  | _, 0 => Except.ok ()
  | cur, k + 1 =>
    if t.current prev = t.current cur then
      match t.complicate cur with
      | (true, _) => Except.error SanityFailure.complicateTrueAfterFalse
      | (false, cur') => complicateStabilityLoop t prev cur' k
    else Except.error SanityFailure.complicateChangedOutput

/-- The strict-mode assertion of `check_strategy_sanity`: when
`strict_complicate_after_simplify` is set, `complicate()` is called once on
the clone of the just-simplified state and must return `true` (this consumes
that call, so the drive loop continues from the complicated clone); when
unset, the clone is passed through untouched. -/
def strictComplicatePhase {σ α : Type} (t : ValueTree σ α) (strict : Bool)
    (s1 : σ) : Except SanityFailure σ :=
  if strict then
    match t.complicate s1 with
    | (false, _) => Except.error SanityFailure.strictComplicateFalse
    | (true, c1) => Except.ok c1
  else Except.ok s1

/-- After the strict-mode phase: drive `complicate()` until it returns
`false` (budget 65536 of consecutive `true` returns, as in the Rust counter),
assert that `current()` has returned to `before_simplified.current()`
(invariant I2), then run the 15-iteration stability loop. -/
def driveAndCheckComplicate {σ α : Type} [DecidableEq α] (t : ValueTree σ α)
    (before c0 : σ) : Except SanityFailure Unit :=
  match complicateLoopFrom t c0 c0 65536 with
  | Except.error e => Except.error e
  | Except.ok (prev, c) =>
    if t.current before = t.current c then
      complicateStabilityLoop t prev c 15
    else Except.error SanityFailure.roundTripMismatch

/-- Everything `check_strategy_sanity` does after one `simplify()` call that
returned `true`: the strict-mode assertion on a clone, then the
complicate-drive and its checks.  `before` is `before_simplified`, `s1` the
state after the successful `simplify()`. -/
def postSimplifyChecks {σ α : Type} [DecidableEq α] (t : ValueTree σ α)
    (strict : Bool) (before s1 : σ) : Except SanityFailure Unit :=
  match strictComplicatePhase t strict s1 with
  | Except.error e => Except.error e
  | Except.ok c0 => driveAndCheckComplicate t before c0

/-- The outer `loop` of one trial: clone `before_simplified`, call
`simplify()`; on `false` break (returning the pre-call clone and the mutated
state); on `true` run `postSimplifyChecks` and continue with the simplified
state.  The Rust code increments `num_simplifies` after the checks and panics
when it exceeds 65536; `budget` is the remaining allowance, so completing the
checks with `budget = 0` is the 65537th successful simplify and triggers the
possible-infinite-loop panic. -/
def simplifyWalkFrom {σ α : Type} [DecidableEq α] (t : ValueTree σ α)
    (strict : Bool) : σ → Nat → Except SanityFailure (σ × σ)
  | s, budget =>
    match t.simplify s with
    | (false, s') => Except.ok (s, s')
    | (true, s') =>
      match postSimplifyChecks t strict s s' with
      | Except.error e => Except.error e
      | Except.ok () =>
        match budget with
        | 0 => Except.error SanityFailure.simplifyLoopPanic
        | b + 1 => simplifyWalkFrom t strict s' b

/-- The final `for iter in 0..16` loop of one trial: 16 iterations, each first
asserting that `current()` still equals `before_simplified.current()` and then
asserting that one more `simplify()` call returns `false`. -/
def simplifyStabilityLoop {σ α : Type} [DecidableEq α] (t : ValueTree σ α)
    (before : σ) : σ → Nat → Except SanityFailure Unit
  | _, 0 => Except.ok ()
  | s, k + 1 =>
    if t.current before = t.current s then
      match t.simplify s with
      | (true, _) => Except.error SanityFailure.simplifyTrueAfterFalse
      | (false, s') => simplifyStabilityLoop t before s' k
    else Except.error SanityFailure.simplifyChangedOutput

/-- One trial of `check_strategy_sanity`: the full simplify walk (with its
65536 budget) followed by the 16-iteration simplify-stability loop on the
state at which `simplify()` first returned `false`. -/
def checkValueTree {σ α : Type} [DecidableEq α] (t : ValueTree σ α)
    (strict : Bool) (s0 : σ) : Except SanityFailure Unit :=
  match simplifyWalkFrom t strict s0 65536 with
  | Except.error e => Except.error e
  | Except.ok (before, st) => simplifyStabilityLoop t before st 16

/-- The `for _ in 0..1024` loop of `check_strategy_sanity`: each iteration
draws a fresh value tree with `strategy.new_value(&mut runner).unwrap()`
(a failed draw panics) and runs one trial on it. -/
def sanityTrials {ρ σ α : Type} [DecidableEq α] (S : Strategy ρ σ α)
    (strict : Bool) : Nat → ρ → Except SanityFailure Unit
  | 0, _ => Except.ok ()
  | n + 1, r =>
    match S.new_value r with
    | (Except.error e, _) => Except.error (SanityFailure.unwrapPanic e)
    | (Except.ok s0, r') =>
      match checkValueTree S.tree strict s0 with
      | Except.error e => Except.error e
      | Except.ok () => sanityTrials S strict n r'

/-- `check_strategy_sanity(strategy, options)`: unwrap the options (falling
back to the default), then run 1024 trials.  The Rust function builds its own
`TestRunner::new(Config::default())`; the initial runner state is abstracted
as the argument `r`. -/
def check_strategy_sanity {ρ σ α : Type} [DecidableEq α] (S : Strategy ρ σ α)
    (options : Option CheckStrategySanityOptions) (r : ρ) :
    Except SanityFailure Unit :=
  let opts := options.getD CheckStrategySanityOptions.default
  sanityTrials S opts.strict_complicate_after_simplify 1024 r

/-- The `proxy_strategy!` macro instances (src/strategy/traits.rs):
`Box<S>`, `&S`, `&mut S`, `Rc<S>`, `Arc<S>` all implement `Strategy` by
delegating `new_value` (and hence the produced trees) to `**self` unchanged. -/
def proxy_strategy {ρ σ α : Type} (S : Strategy ρ σ α) : Strategy ρ σ α :=
  { tree := S.tree, new_value := fun r => S.new_value r }

/-- `struct NoShrink<T>(T)`: wraps a `Strategy` or `ValueTree`. -/
structure NoShrink (T : Type) where
  val : T

/-- `impl ValueTree for NoShrink<T>`: `current` delegates to the inner tree,
`simplify` and `complicate` do nothing and return `false`. -/
def NoShrink.tree {σ α : Type} (t : ValueTree σ α) :
    ValueTree (NoShrink σ) α where
  current s := t.current s.val
  simplify s := (false, s)
  complicate s := (false, s)

/-- `impl Strategy for NoShrink<T>`: `new_value` is
`self.0.new_value(runner).map(NoShrink)` — the `Ok` payload is wrapped, an
`Err` passes through unchanged. -/
def NoShrink.strategy {ρ σ α : Type} (S : Strategy ρ σ α) :
    Strategy ρ (NoShrink σ) α where
  tree := NoShrink.tree S.tree
  new_value r :=
    match S.new_value r with
    | (Except.ok v, r') => (Except.ok ⟨v⟩, r')
    | (Except.error e, r') => (Except.error e, r')

/-- `Strategy::no_shrink(self) -> NoShrink<Self>`. -/
def Strategy.no_shrink {ρ σ α : Type} (S : Strategy ρ σ α) :
    Strategy ρ (NoShrink σ) α :=
  NoShrink.strategy S

/-- The heap indirection introduced by `Box::new` on a value tree
(`Box<ValueTree<Value = T>>`). -/
structure Boxed (T : Type) where
  val : T

/-- `impl ValueTree for Box<T>`: all three operations delegate to `**self`. -/
def ValueTree.boxedTree {σ α : Type} (t : ValueTree σ α) :
    ValueTree (Boxed σ) α where
  current s := t.current s.val
  simplify s := ((t.simplify s.val).1, ⟨(t.simplify s.val).2⟩)
  complicate s := ((t.complicate s.val).1, ⟨(t.complicate s.val).2⟩)

/-- `struct BoxedStrategyWrapper<T>(T)` together with the `Box` strategy
proxy, i.e. the strategy value built by `Strategy::boxed()`:
`new_value` is `Ok(Box::new(self.0.new_value(runner)?))` — an inner `Err`
propagates unchanged via `?`, an inner `Ok` is boxed — and the produced trees
are the boxed delegating trees. -/
def Strategy.boxed {ρ σ α : Type} (S : Strategy ρ σ α) :
    Strategy ρ (Boxed σ) α where
  tree := ValueTree.boxedTree S.tree
  new_value r :=
    match S.new_value r with
    | (Except.ok v, r') => (Except.ok ⟨v⟩, r')
    | (Except.error e, r') => (Except.error e, r')

/-- `Strategy::sboxed()`: identical construction to `boxed()`
(`Box::new(BoxedStrategyWrapper(self))`); the extra `Send + Sync` bounds have
no observable counterpart in the embedding. -/
def Strategy.sboxed {ρ σ α : Type} (S : Strategy ρ σ α) :
    Strategy ρ (Boxed σ) α :=
  Strategy.boxed S

/-- `std::string::ParseError`, an uninhabited (never-constructible) type. -/
inductive ParseError : Type

/-- Rust's `Result<T, E>` sum type, kept distinct from the embedding's use of
`Except` for `new_value` plumbing. -/
inductive RustResult (T E : Type) : Type
  | ok (val : T)
  | err (val : E)

/-- Modelled from the spec: `static_map` lives in `strategy/statics.rs`,
which is not under src/.  Per the spec (§4.1, `map(f)`): the new value is
`f(current)` applied on every read, shrinking is delegated entirely to the
source tree, and tree creation just maps the source draw. -/
def static_map {ρ σ α β : Type} (S : Strategy ρ σ α) (f : α → β) :
    Strategy ρ σ β where
  tree :=
    { current := fun s => f (S.tree.current s)
      simplify := S.tree.simplify
      complicate := S.tree.complicate }
  new_value := S.new_value

/-- The `arbitrary!` instance for `Result<A, ParseError>`
(src/arbitrary/_std/result.rs): `static_map(any_with::<A>(args), Result::Ok)`
applied to the strategy chosen for `A`. -/
def resultOkArbitrary {ρ σ α : Type} (S : Strategy ρ σ α) :
    Strategy ρ σ (RustResult α ParseError) :=
  static_map S RustResult.ok

/-- The `arbitrary!` instance for `Result<ParseError, A>`
(src/arbitrary/_std/result.rs): `static_map(any_with::<A>(args), Result::Err)`
applied to the strategy chosen for `A`. -/
def resultErrArbitrary {ρ σ α : Type} (S : Strategy ρ σ α) :
    Strategy ρ σ (RustResult ParseError α) :=
  static_map S RustResult.err

/-- The state reached from `s` by `i` successive `simplify()` calls. -/
def simplifyIter {σ α : Type} (t : ValueTree σ α) (s : σ) : Nat → σ
  | 0 => s
  | n + 1 => simplifyIter t (t.simplify s).2 n

/-- The state reached from `s` by `i` successive `complicate()` calls. -/
def complicateIter {σ α : Type} (t : ValueTree σ α) (s : σ) : Nat → σ
  | 0 => s
  | n + 1 => complicateIter t (t.complicate s).2 n

/-! ### Concrete trees and strategies used to instantiate theorems -/

/-- A concrete tree with constant value `0` whose `simplify` and `complicate`
never change anything and always return `false`. -/
def constTree : ValueTree Nat Nat where
  current _ := 0
  simplify s := (false, s)
  complicate s := (false, s)

/-- A concrete tree whose `current` exposes the state and whose operations
never report a change; distinct states expose distinct values. -/
def idTree : ValueTree Nat Nat where
  current s := s
  simplify s := (false, s)
  complicate s := (false, s)

/-- A concrete tree whose `complicate` returns `true` exactly once, at state
`0`, moving to state `1`. -/
def oneComplicateTree : ValueTree Nat Nat where
  current _ := 0
  simplify s := (false, s)
  complicate s := (decide (s = 0), 1)

/-- A concrete tree whose `complicate` returns `true` forever. -/
def alwaysComplicateTree : ValueTree Nat Nat where
  current _ := 0
  simplify s := (false, s)
  complicate s := (true, s)

/-- A concrete tree whose `simplify` returns `true` forever while
`complicate` immediately reports exhaustion. -/
def alwaysSimplifyTree : ValueTree Nat Nat where
  current _ := 0
  simplify s := (true, s)
  complicate s := (false, s)

/-- A concrete infallible strategy over `constTree`; `new_value` consumes one
unit of runner state. -/
def okStrategy : Strategy Nat Nat Nat where
  tree := constTree
  new_value r := (Except.ok r, r + 1)

/-- A concrete strategy whose `new_value` always aborts, as a filter
combinator does once its local-rejection allowance is exhausted. -/
def failStrategy : Strategy Nat Nat Nat where
  tree := constTree
  new_value r := (Except.error "filter rejection budget exhausted", r)

/-- A concrete tree over states `(phase, complicateCalls)` that counts its
`complicate()` calls.  `current` is constantly `0`; `simplify` succeeds once
(phase `0` to phase `1`) and then always returns `false`; `complicate`
returns `false` for its first 16 calls and `true` on its 17th call.  Inside
one harness trial the drive loop consumes call 0 (the first `false`), so the
15-iteration stability loop observes calls 1 through 15; a 16th subsequent
call, which the harness never makes, would return `true`. -/
def c5Tree : ValueTree (Nat × Nat) Nat where
  current _ := 0
  simplify s := if s.1 = 0 then (true, (1, s.2)) else (false, s)
  complicate s := (decide (s.2 = 16), (s.1, s.2 + 1))

/-- The strategy that always draws `c5Tree`'s initial state. -/
def c5Strategy : Strategy Nat (Nat × Nat) Nat where
  tree := c5Tree
  new_value r := (Except.ok (0, 0), r)

/-! ### Helper lemmas about the harness loops -/

theorem complicateLoopFrom_break {σ α : Type} (t : ValueTree σ α)
    {cur cur' : σ} (prev : σ) (b : Nat)
    (h : t.complicate cur = (false, cur')) :
    complicateLoopFrom t prev cur b = Except.ok (prev, cur') := by
  cases b <;> simp only [complicateLoopFrom, h]

theorem complicateLoopFrom_step {σ α : Type} (t : ValueTree σ α)
    {cur cur' : σ} (prev : σ) (b : Nat)
    (h : t.complicate cur = (true, cur')) :
    complicateLoopFrom t prev cur (b + 1) = complicateLoopFrom t cur' cur' b := by
  conv_lhs => rw [complicateLoopFrom]
  rw [h]

theorem complicateLoopFrom_error_elim {σ α : Type} (t : ValueTree σ α) :
    ∀ (b : Nat) (prev cur : σ) (e : SanityFailure),
      complicateLoopFrom t prev cur b = Except.error e →
      e = SanityFailure.complicateLoopPanic := by
  intro b
  induction b with
  | zero =>
    intro prev cur e h
    rw [complicateLoopFrom] at h
    rcases hc : t.complicate cur with ⟨flag, cur'⟩
    rw [hc] at h
    cases flag
    · exact absurd h (by simp)
    · simpa using h.symm
  | succ b ih =>
    intro prev cur e h
    rw [complicateLoopFrom] at h
    rcases hc : t.complicate cur with ⟨flag, cur'⟩
    rw [hc] at h
    cases flag
    · exact absurd h (by simp)
    · exact ih cur' cur' e h

theorem complicateStabilityLoop_error_elim {σ α : Type} [DecidableEq α]
    (t : ValueTree σ α) (prev : σ) :
    ∀ (k : Nat) (c : σ) (e : SanityFailure),
      complicateStabilityLoop t prev c k = Except.error e →
      e = SanityFailure.complicateChangedOutput ∨
        e = SanityFailure.complicateTrueAfterFalse := by
  intro k
  induction k with
  | zero =>
    intro c e h
    exact absurd h (by simp [complicateStabilityLoop])
  | succ k ih =>
    intro c e h
    rw [complicateStabilityLoop] at h
    by_cases hc : t.current prev = t.current c
    · rw [if_pos hc] at h
      rcases hm : t.complicate c with ⟨flag, c'⟩
      rw [hm] at h
      cases flag
      · exact ih c' e h
      · exact Or.inr (by simpa using h.symm)
    · rw [if_neg hc] at h
      exact Or.inl (by simpa using h.symm)

theorem postSimplifyChecks_of_strict_ok {σ α : Type} [DecidableEq α]
    (t : ValueTree σ α) (strict : Bool) (before : σ) {s1 c0 : σ}
    (h : strictComplicatePhase t strict s1 = Except.ok c0) :
    postSimplifyChecks t strict before s1 = driveAndCheckComplicate t before c0 := by
  unfold postSimplifyChecks
  rw [h]

theorem driveAndCheckComplicate_of_loop_ok {σ α : Type} [DecidableEq α]
    (t : ValueTree σ α) (before : σ) {c0 prev c : σ}
    (h : complicateLoopFrom t c0 c0 65536 = Except.ok (prev, c)) :
    driveAndCheckComplicate t before c0 =
      if t.current before = t.current c then
        complicateStabilityLoop t prev c 15
      else Except.error SanityFailure.roundTripMismatch := by
  unfold driveAndCheckComplicate
  rw [h]

theorem simplifyWalkFrom_break {σ α : Type} [DecidableEq α]
    (t : ValueTree σ α) (strict : Bool) {s s' : σ} (b : Nat)
    (h : t.simplify s = (false, s')) :
    simplifyWalkFrom t strict s b = Except.ok (s, s') := by
  cases b <;> simp only [simplifyWalkFrom, h]

theorem checkValueTree_of_walk_ok {σ α : Type} [DecidableEq α]
    (t : ValueTree σ α) (strict : Bool) {s0 before st : σ}
    (h : simplifyWalkFrom t strict s0 65536 = Except.ok (before, st)) :
    checkValueTree t strict s0 = simplifyStabilityLoop t before st 16 := by
  unfold checkValueTree
  rw [h]

theorem forall_lt_succ_shift {n : Nat} {p : Nat → Prop} :
    (∀ i < n + 1, p i) ↔ p 0 ∧ ∀ i < n, p (i + 1) := by
  constructor
  · intro h
    exact ⟨h 0 (Nat.succ_pos n), fun i hi => h (i + 1) (by omega)⟩
  · rintro ⟨h0, h⟩ i hi
    cases i with
    | zero => exact h0
    | succ j => exact h j (by omega)

theorem simplifyStabilityLoop_ok_iff {σ α : Type} [DecidableEq α]
    (t : ValueTree σ α) (before : σ) :
    ∀ (n : Nat) (s : σ),
      simplifyStabilityLoop t before s n = Except.ok () ↔
        ∀ i < n, t.current before = t.current (simplifyIter t s i) ∧
          (t.simplify (simplifyIter t s i)).1 = false := by
  intro n
  induction n with
  | zero =>
    intro s
    simp [simplifyStabilityLoop]
  | succ k ih =>
    intro s
    rw [simplifyStabilityLoop, forall_lt_succ_shift]
    rcases hs : t.simplify s with ⟨flag, s'⟩
    by_cases hc : t.current before = t.current s
    · rw [if_pos hc]
      cases flag
      · simp only [simplifyIter, hs, ih s']
        simp [hc]
      · simp [simplifyIter, hs]
    · rw [if_neg hc]
      simp [simplifyIter, hc]

theorem complicateStabilityLoop_ok_iff {σ α : Type} [DecidableEq α]
    (t : ValueTree σ α) (prev : σ) :
    ∀ (n : Nat) (c : σ),
      complicateStabilityLoop t prev c n = Except.ok () ↔
        ∀ i < n, t.current prev = t.current (complicateIter t c i) ∧
          (t.complicate (complicateIter t c i)).1 = false := by
  intro n
  induction n with
  | zero =>
    intro c
    simp [complicateStabilityLoop]
  | succ k ih =>
    intro c
    rw [complicateStabilityLoop, forall_lt_succ_shift]
    rcases hm : t.complicate c with ⟨flag, c'⟩
    by_cases hc : t.current prev = t.current c
    · rw [if_pos hc]
      cases flag
      · simp only [complicateIter, hm, ih c']
        simp [hc]
      · simp [complicateIter, hm]
    · rw [if_neg hc]
      simp [complicateIter, hc]

theorem complicateLoopFrom_exhaust {σ α : Type} (t : ValueTree σ α)
    {cur cur' : σ} (prev : σ) (h : t.complicate cur = (true, cur')) :
    complicateLoopFrom t prev cur 0 =
      Except.error SanityFailure.complicateLoopPanic := by
  rw [complicateLoopFrom, h]

theorem complicateLoopFrom_panic_of_true {σ α : Type} (t : ValueTree σ α) :
    ∀ (b : Nat) (prev cur : σ),
      (∀ i ≤ b, (t.complicate (complicateIter t cur i)).1 = true) →
      complicateLoopFrom t prev cur b =
        Except.error SanityFailure.complicateLoopPanic := by
  intro b
  induction b with
  | zero =>
    intro prev cur h
    have h0 : (t.complicate cur).1 = true := h 0 (Nat.le_refl 0)
    have hc : t.complicate cur = (true, (t.complicate cur).2) := by rw [← h0]
    exact complicateLoopFrom_exhaust t prev hc
  | succ b ih =>
    intro prev cur h
    have h0 : (t.complicate cur).1 = true := h 0 (Nat.zero_le _)
    have hc : t.complicate cur = (true, (t.complicate cur).2) := by rw [← h0]
    rw [complicateLoopFrom_step t prev b hc]
    apply ih
    intro i hi
    exact h (i + 1) (by omega)

theorem simplifyWalkFrom_true {σ α : Type} [DecidableEq α]
    (t : ValueTree σ α) (strict : Bool) {s s' : σ} (b : Nat)
    (hs : t.simplify s = (true, s')) :
    simplifyWalkFrom t strict s b =
      match postSimplifyChecks t strict s s' with
      | Except.error e => Except.error e
      | Except.ok _ =>
        match b with
        | 0 => Except.error SanityFailure.simplifyLoopPanic
        | Nat.succ b' => simplifyWalkFrom t strict s' b' := by
  conv_lhs => rw [simplifyWalkFrom]
  rw [hs]
  rfl

theorem simplifyWalkFrom_panic_of_true {σ α : Type} [DecidableEq α]
    (t : ValueTree σ α) (strict : Bool) :
    ∀ (b : Nat) (s : σ),
      (∀ i ≤ b, (t.simplify (simplifyIter t s i)).1 = true) →
      (∀ x y, postSimplifyChecks t strict x y = Except.ok ()) →
      simplifyWalkFrom t strict s b =
        Except.error SanityFailure.simplifyLoopPanic := by
  intro b
  induction b with
  | zero =>
    intro s h hok
    have h0 : (t.simplify s).1 = true := h 0 (Nat.le_refl 0)
    have hs : t.simplify s = (true, (t.simplify s).2) := by rw [← h0]
    rw [simplifyWalkFrom_true t strict 0 hs, hok]
  | succ b ih =>
    intro s h hok
    have h0 : (t.simplify s).1 = true := h 0 (Nat.zero_le _)
    have hs : t.simplify s = (true, (t.simplify s).2) := by rw [← h0]
    rw [simplifyWalkFrom_true t strict (b + 1) hs, hok]
    apply ih _ _ hok
    intro i hi
    exact h (i + 1) (by omega)

theorem sanityTrials_err {ρ σ α : Type} [DecidableEq α] (S : Strategy ρ σ α)
    (strict : Bool) (n : Nat) {r : ρ} {e : String} {r' : ρ}
    (h : S.new_value r = (Except.error e, r')) :
    sanityTrials S strict (n + 1) r =
      Except.error (SanityFailure.unwrapPanic e) := by
  rw [sanityTrials, h]

theorem sanityTrials_succ_unfold {ρ σ α : Type} [DecidableEq α]
    (S : Strategy ρ σ α) (strict : Bool) (n : Nat) {r : ρ} {s0 : σ} {r' : ρ}
    (h : S.new_value r = (Except.ok s0, r')) :
    sanityTrials S strict (n + 1) r =
      match checkValueTree S.tree strict s0 with
      | Except.error e => Except.error e
      | Except.ok _ => sanityTrials S strict n r' := by
  conv_lhs => rw [sanityTrials]
  rw [h]
  rfl

theorem sanityTrials_step {ρ σ α : Type} [DecidableEq α] (S : Strategy ρ σ α)
    (strict : Bool) (n : Nat) {r : ρ} {s0 : σ} {r' : ρ}
    (h : S.new_value r = (Except.ok s0, r'))
    (hok : checkValueTree S.tree strict s0 = Except.ok ()) :
    sanityTrials S strict (n + 1) r = sanityTrials S strict n r' := by
  rw [sanityTrials_succ_unfold S strict n h, hok]

theorem strictComplicatePhase_fails {σ α : Type} (t : ValueTree σ α)
    {s1 s2 : σ} (h : t.complicate s1 = (false, s2)) :
    strictComplicatePhase t true s1 =
      Except.error SanityFailure.strictComplicateFalse := by
  show (match t.complicate s1 with
    | (false, _) => Except.error SanityFailure.strictComplicateFalse
    | (true, c1) => Except.ok c1) = _
  rw [h]

theorem strictComplicatePhase_passes {σ α : Type} (t : ValueTree σ α)
    {s1 c1 : σ} (h : t.complicate s1 = (true, c1)) :
    strictComplicatePhase t true s1 = Except.ok c1 := by
  show (match t.complicate s1 with
    | (false, _) => Except.error SanityFailure.strictComplicateFalse
    | (true, c1) => Except.ok c1) = _
  rw [h]

theorem strictComplicatePhase_skip {σ α : Type} (t : ValueTree σ α) (s1 : σ) :
    strictComplicatePhase t false s1 = Except.ok s1 := rfl

theorem noShrink_new_value_ok {ρ σ α : Type} (S : Strategy ρ σ α)
    {r : ρ} {v : σ} {r' : ρ} (h : S.new_value r = (Except.ok v, r')) :
    (NoShrink.strategy S).new_value r = (Except.ok ⟨v⟩, r') := by
  show (match S.new_value r with
    | (Except.ok v, r') => (Except.ok (NoShrink.mk v), r')
    | (Except.error e, r') => (Except.error e, r')) = _
  rw [h]

theorem noShrink_new_value_err {ρ σ α : Type} (S : Strategy ρ σ α)
    {r : ρ} {e : String} {r' : ρ} (h : S.new_value r = (Except.error e, r')) :
    (NoShrink.strategy S).new_value r = (Except.error e, r') := by
  show (match S.new_value r with
    | (Except.ok v, r') => (Except.ok (NoShrink.mk v), r')
    | (Except.error e, r') => (Except.error e, r')) = _
  rw [h]

theorem boxed_new_value_ok {ρ σ α : Type} (S : Strategy ρ σ α)
    {r : ρ} {v : σ} {r' : ρ} (h : S.new_value r = (Except.ok v, r')) :
    (Strategy.boxed S).new_value r = (Except.ok ⟨v⟩, r') := by
  show (match S.new_value r with
    | (Except.ok v, r') => (Except.ok (Boxed.mk v), r')
    | (Except.error e, r') => (Except.error e, r')) = _
  rw [h]

theorem boxed_new_value_err {ρ σ α : Type} (S : Strategy ρ σ α)
    {r : ρ} {e : String} {r' : ρ} (h : S.new_value r = (Except.error e, r')) :
    (Strategy.boxed S).new_value r = (Except.error e, r') := by
  show (match S.new_value r with
    | (Except.ok v, r') => (Except.ok (Boxed.mk v), r')
    | (Except.error e, r') => (Except.error e, r')) = _
  rw [h]

/-! ### Claim theorems -/

/-- C1: `check_strategy_sanity` performs 1024 trial runs; each trial draws a
fresh value tree from `new_value` and moves to the next trial on the next
runner state once its checks pass.  Within a trial, after every `simplify()`
call that returns `true`, the harness drives `complicate()` repeatedly —
continuing exactly while `complicate()` returns `true` — until it returns
`false`, and then asserts that `current()` equals the `current()` observed
immediately before that `simplify()` call (invariant I2), reporting the
round-trip assertion failure exactly when the two values differ. -/
theorem sanity_harness_roundtrip_i2 :
    (∀ (ρ σ α : Type) [DecidableEq α] (S : Strategy ρ σ α)
        (options : Option CheckStrategySanityOptions) (r : ρ),
        check_strategy_sanity S options r =
          sanityTrials S
            (options.getD
              CheckStrategySanityOptions.default).strict_complicate_after_simplify
            1024 r) ∧
    (∀ (ρ σ α : Type) [DecidableEq α] (S : Strategy ρ σ α) (strict : Bool)
        (n : Nat) (r : ρ) (s0 : σ) (r' : ρ),
        S.new_value r = (Except.ok s0, r') →
        checkValueTree S.tree strict s0 = Except.ok () →
        sanityTrials S strict (n + 1) r = sanityTrials S strict n r') ∧
    (∀ (σ α : Type) (t : ValueTree σ α) (prev cur cur' : σ) (b : Nat),
        t.complicate cur = (false, cur') →
        complicateLoopFrom t prev cur b = Except.ok (prev, cur')) ∧
    (∀ (σ α : Type) (t : ValueTree σ α) (prev cur cur' : σ) (b : Nat),
        t.complicate cur = (true, cur') →
        complicateLoopFrom t prev cur (b + 1) =
          complicateLoopFrom t cur' cur' b) ∧
    (∀ (σ α : Type) [DecidableEq α] (t : ValueTree σ α) (strict : Bool)
        (before s1 c0 prev c : σ),
        strictComplicatePhase t strict s1 = Except.ok c0 →
        complicateLoopFrom t c0 c0 65536 = Except.ok (prev, c) →
        (postSimplifyChecks t strict before s1 =
            Except.error SanityFailure.roundTripMismatch ↔
          t.current before ≠ t.current c)) := by
  refine ⟨?_, ?_, ?_, ?_, ?_⟩
  · intro ρ σ α inst S options r
    rfl
  · intro ρ σ α inst S strict n r s0 r' h hok
    exact sanityTrials_step S strict n h hok
  · intro σ α t prev cur cur' b h
    exact complicateLoopFrom_break t prev b h
  · intro σ α t prev cur cur' b h
    exact complicateLoopFrom_step t prev b h
  intro σ α inst t strict before s1 c0 prev c h1 h2
  rw [postSimplifyChecks_of_strict_ok t strict before h1,
    driveAndCheckComplicate_of_loop_ok t before h2]
  by_cases hc : t.current before = t.current c
  · rw [if_pos hc]
    constructor
    · intro hstab
      rcases complicateStabilityLoop_error_elim t prev 15 c _ hstab with h | h <;>
        simp at h
    · intro hne
      exact absurd hc hne
  · rw [if_neg hc]
    exact ⟨fun _ => hc, fun _ => rfl⟩

/-- C1 witness: the pieces of `sanity_harness_roundtrip_i2` instantiated at
concrete trees and strategies. -/
theorem sanity_harness_roundtrip_i2_witness :
    check_strategy_sanity okStrategy none 0 = sanityTrials okStrategy true 1024 0 ∧
    sanityTrials okStrategy true 4 0 = sanityTrials okStrategy true 3 1 ∧
    complicateLoopFrom constTree 7 7 65536 = Except.ok (7, 7) ∧
    complicateLoopFrom oneComplicateTree 0 0 65536 =
      complicateLoopFrom oneComplicateTree 1 1 65535 ∧
    postSimplifyChecks idTree false 1 0 =
      Except.error SanityFailure.roundTripMismatch := by
  refine ⟨?_, ?_, ?_, ?_, ?_⟩
  · exact sanity_harness_roundtrip_i2.1 Nat Nat Nat okStrategy none 0
  · exact sanity_harness_roundtrip_i2.2.1 Nat Nat Nat okStrategy true 3 0 0 1
      rfl rfl
  · exact sanity_harness_roundtrip_i2.2.2.1 Nat Nat constTree 7 7 7 65536 rfl
  · exact sanity_harness_roundtrip_i2.2.2.2.1 Nat Nat oneComplicateTree 0 0 1
      65535 (by decide)
  · exact (sanity_harness_roundtrip_i2.2.2.2.2 Nat Nat idTree false 1 0 0 0 0
      rfl rfl).mpr (by decide)

/-- C4: once a tree's `simplify()` first returns `false`, the trial breaks
out of the walk remembering the state cloned just before that call, and the
harness then runs 16 further iterations, each asserting that `simplify()`
returns `false` again and that `current()` equals the value observed before
the first false-returning `simplify()` (invariant I1). -/
theorem simplify_idempotent_after_false :
    (∀ (σ α : Type) [DecidableEq α] (t : ValueTree σ α) (strict : Bool)
        (s s' : σ) (b : Nat),
        t.simplify s = (false, s') →
        simplifyWalkFrom t strict s b = Except.ok (s, s')) ∧
    (∀ (σ α : Type) [DecidableEq α] (t : ValueTree σ α) (strict : Bool)
        (s0 before st : σ),
        simplifyWalkFrom t strict s0 65536 = Except.ok (before, st) →
        checkValueTree t strict s0 = simplifyStabilityLoop t before st 16) ∧
    (∀ (σ α : Type) [DecidableEq α] (t : ValueTree σ α) (before st : σ)
        (n : Nat),
        simplifyStabilityLoop t before st n = Except.ok () ↔
          ∀ i < n, t.current before = t.current (simplifyIter t st i) ∧
            (t.simplify (simplifyIter t st i)).1 = false) := by
  refine ⟨?_, ?_, ?_⟩
  · intro σ α inst t strict s s' b h
    exact simplifyWalkFrom_break t strict b h
  · intro σ α inst t strict s0 before st h
    exact checkValueTree_of_walk_ok t strict h
  · intro σ α inst t before st n
    exact simplifyStabilityLoop_ok_iff t before n st

/-- C4 witness: `simplify_idempotent_after_false` instantiated at a concrete
tree whose `simplify()` immediately returns `false`. -/
theorem simplify_idempotent_after_false_witness :
    simplifyWalkFrom constTree false 3 65536 = Except.ok (3, 3) ∧
    checkValueTree constTree false 3 = simplifyStabilityLoop constTree 3 3 16 ∧
    simplifyStabilityLoop constTree 3 3 16 = Except.ok () := by
  refine ⟨?_, ?_, ?_⟩
  · exact simplify_idempotent_after_false.1 Nat Nat constTree false 3 3 65536 rfl
  · exact simplify_idempotent_after_false.2.1 Nat Nat constTree false 3 3 3 rfl
  · exact (simplify_idempotent_after_false.2.2 Nat Nat constTree 3 3 16).mpr
      (by decide)

set_option maxRecDepth 16384 in
/-- C5 counterexample: the post-drive stability check runs for 15 subsequent
`complicate()` calls, not 16.  `c5Tree` returns `false` from `complicate()`
for its calls 0 through 15 and `true` on call 16.  During the harness trial
the drive loop consumes call 0 (the first `false`) and the `for iter in 1..16`
loop checks calls 1 through 15, so `check_strategy_sanity` passes; yet the
16th subsequent call after the first `false` — made from state `(1, 16)`,
which is where 15 further calls from the first-false state `(1, 1)` land —
returns `true`, which a 16-call check would have rejected. -/
theorem complicate_stability_sixteen_cx :
    check_strategy_sanity c5Strategy
        (some { strict_complicate_after_simplify := false,
                _non_exhaustive := () }) 0 =
      Except.ok () ∧
    complicateIter c5Tree (1, 1) 15 = (1, 16) ∧
    (c5Tree.complicate (1, 16)).1 = true := by
  exact ⟨rfl, by decide, by decide⟩

/-- C5 amended: after driving `complicate()` until it first returns `false`
following a successful `simplify()`, the harness checks for 15 (not 16)
subsequent `complicate()` calls that each returns `false` and that
`current()` is unchanged from the snapshot `prev_complicated` taken just
after the last `complicate()` that returned `true` (i.e. just before
`complicate()` first returned `false`). -/
theorem complicate_stability_fifteen :
    (∀ (σ α : Type) [DecidableEq α] (t : ValueTree σ α) (strict : Bool)
        (before s1 c0 prev c : σ),
        strictComplicatePhase t strict s1 = Except.ok c0 →
        complicateLoopFrom t c0 c0 65536 = Except.ok (prev, c) →
        t.current before = t.current c →
        postSimplifyChecks t strict before s1 =
          complicateStabilityLoop t prev c 15) ∧
    (∀ (σ α : Type) [DecidableEq α] (t : ValueTree σ α) (prev c : σ)
        (n : Nat),
        complicateStabilityLoop t prev c n = Except.ok () ↔
          ∀ i < n, t.current prev = t.current (complicateIter t c i) ∧
            (t.complicate (complicateIter t c i)).1 = false) := by
  constructor
  · intro σ α inst t strict before s1 c0 prev c h1 h2 heq
    rw [postSimplifyChecks_of_strict_ok t strict before h1,
      driveAndCheckComplicate_of_loop_ok t before h2, if_pos heq]
  · intro σ α inst t prev c n
    exact complicateStabilityLoop_ok_iff t prev n c

/-- C5 witness: `complicate_stability_fifteen` instantiated at a concrete
tree whose `complicate()` immediately returns `false`. -/
theorem complicate_stability_fifteen_witness :
    postSimplifyChecks constTree false 0 0 =
      complicateStabilityLoop constTree 0 0 15 ∧
    complicateStabilityLoop constTree 0 0 15 = Except.ok () := by
  refine ⟨?_, ?_⟩
  · exact complicate_stability_fifteen.1 Nat Nat constTree false 0 0 0 0 0
      rfl rfl rfl
  · exact (complicate_stability_fifteen.2 Nat Nat constTree 0 0 15).mpr
      (by decide)

/-- C2: `new_value` reports construction failure as an `Err` carrying a
human-readable string, and every wrapper strategy propagates the inner
result: the `Box`/`&`/`&mut`/`Rc`/`Arc` proxies return exactly the inner
result, while `NoShrink` and the boxed type-erasure wrapper return `Ok`
exactly when the inner strategy does and pass an inner `Err` through
unchanged. -/
theorem new_value_wrappers_propagate_err :
    (∀ (ρ σ α : Type) (S : Strategy ρ σ α) (r : ρ),
        (proxy_strategy S).new_value r = S.new_value r) ∧
    (∀ (ρ σ α : Type) (S : Strategy ρ σ α) (r : ρ),
        ((∃ v r', (NoShrink.strategy S).new_value r = (Except.ok v, r')) ↔
          ∃ v r', S.new_value r = (Except.ok v, r')) ∧
        ∀ e r', S.new_value r = (Except.error e, r') →
          (NoShrink.strategy S).new_value r = (Except.error e, r')) ∧
    (∀ (ρ σ α : Type) (S : Strategy ρ σ α) (r : ρ),
        ((∃ v r', (Strategy.boxed S).new_value r = (Except.ok v, r')) ↔
          ∃ v r', S.new_value r = (Except.ok v, r')) ∧
        ∀ e r', S.new_value r = (Except.error e, r') →
          (Strategy.boxed S).new_value r = (Except.error e, r')) := by
  refine ⟨fun ρ σ α S r => rfl, ?_, ?_⟩
  · intro ρ σ α S r
    refine ⟨⟨?_, ?_⟩, fun e r' h => noShrink_new_value_err S h⟩
    · rintro ⟨v, r', hv⟩
      rcases h : S.new_value r with ⟨res, r2⟩
      cases res with
      | ok w => exact ⟨w, r2, rfl⟩
      | error e =>
        rw [noShrink_new_value_err S h] at hv
        simp at hv
    · rintro ⟨v, r', hv⟩
      exact ⟨⟨v⟩, r', noShrink_new_value_ok S hv⟩
  · intro ρ σ α S r
    refine ⟨⟨?_, ?_⟩, fun e r' h => boxed_new_value_err S h⟩
    · rintro ⟨v, r', hv⟩
      rcases h : S.new_value r with ⟨res, r2⟩
      cases res with
      | ok w => exact ⟨w, r2, rfl⟩
      | error e =>
        rw [boxed_new_value_err S h] at hv
        simp at hv
    · rintro ⟨v, r', hv⟩
      exact ⟨⟨v⟩, r', boxed_new_value_ok S hv⟩

/-- C2 witness: `new_value_wrappers_propagate_err` instantiated at a
concrete succeeding strategy and a concrete aborting strategy. -/
theorem new_value_wrappers_propagate_err_witness :
    (proxy_strategy failStrategy).new_value 0 = failStrategy.new_value 0 ∧
    ((∃ v r', (NoShrink.strategy okStrategy).new_value 0 = (Except.ok v, r')) ↔
      ∃ v r', okStrategy.new_value 0 = (Except.ok v, r')) ∧
    (NoShrink.strategy failStrategy).new_value 0 =
      (Except.error "filter rejection budget exhausted", 0) ∧
    (Strategy.boxed failStrategy).new_value 0 =
      (Except.error "filter rejection budget exhausted", 0) := by
  refine ⟨?_, ?_, ?_, ?_⟩
  · exact new_value_wrappers_propagate_err.1 Nat Nat Nat failStrategy 0
  · exact (new_value_wrappers_propagate_err.2.1 Nat Nat Nat okStrategy 0).1
  · exact (new_value_wrappers_propagate_err.2.1 Nat Nat Nat failStrategy 0).2
      "filter rejection budget exhausted" 0 rfl
  · exact (new_value_wrappers_propagate_err.2.2 Nat Nat Nat failStrategy 0).2
      "filter rejection budget exhausted" 0 rfl

/-- C3: on every tree produced by `S.no_shrink()`, `simplify()` and
`complicate()` leave the state unchanged and return `false` — in particular
`simplify()` returns `false` on the very first call — and `current()` always
equals the wrapped inner tree's `current()`; the trees it produces are the
inner strategy's draws wrapped in `NoShrink`. -/
theorem no_shrink_freezes :
    (∀ (ρ σ α : Type) (S : Strategy ρ σ α) (s : NoShrink σ),
        (Strategy.no_shrink S).tree.simplify s = (false, s) ∧
        (Strategy.no_shrink S).tree.complicate s = (false, s) ∧
        (Strategy.no_shrink S).tree.current s = S.tree.current s.val) ∧
    (∀ (ρ σ α : Type) (S : Strategy ρ σ α) (r : ρ) (v : σ) (r' : ρ),
        S.new_value r = (Except.ok v, r') →
        (Strategy.no_shrink S).new_value r = (Except.ok ⟨v⟩, r')) := by
  exact ⟨fun ρ σ α S s => ⟨rfl, rfl, rfl⟩,
    fun ρ σ α S r v r' h => noShrink_new_value_ok S h⟩

/-- C3 witness: `no_shrink_freezes` instantiated at a concrete strategy and
state. -/
theorem no_shrink_freezes_witness :
    (Strategy.no_shrink okStrategy).tree.simplify ⟨5⟩ = (false, ⟨5⟩) ∧
    (Strategy.no_shrink okStrategy).tree.complicate ⟨5⟩ = (false, ⟨5⟩) ∧
    (Strategy.no_shrink okStrategy).tree.current ⟨5⟩ = constTree.current 5 ∧
    (Strategy.no_shrink okStrategy).new_value 0 = (Except.ok ⟨0⟩, 1) := by
  obtain ⟨h1, h2, h3⟩ := no_shrink_freezes.1 Nat Nat Nat okStrategy ⟨5⟩
  exact ⟨h1, h2, h3, no_shrink_freezes.2 Nat Nat Nat okStrategy 0 0 1 rfl⟩

/-- C6: `strict_complicate_after_simplify` defaults to `true`; when set, the
harness asserts that `complicate()` returns `true` immediately after every
`simplify()` that returned `true` (failing with the dedicated assertion when
it returns `false`); when unset, that single assertion can never fire, while
the other checks — here the I2 round-trip check — still run. -/
theorem strict_complicate_option :
    CheckStrategySanityOptions.default.strict_complicate_after_simplify = true ∧
    (∀ (σ α : Type) [DecidableEq α] (t : ValueTree σ α) (before s1 s2 : σ),
        t.complicate s1 = (false, s2) →
        postSimplifyChecks t true before s1 =
          Except.error SanityFailure.strictComplicateFalse) ∧
    (∀ (σ α : Type) [DecidableEq α] (t : ValueTree σ α) (before s1 : σ),
        postSimplifyChecks t false before s1 ≠
          Except.error SanityFailure.strictComplicateFalse) ∧
    (∀ (σ α : Type) [DecidableEq α] (t : ValueTree σ α) (before s1 prev c : σ),
        complicateLoopFrom t s1 s1 65536 = Except.ok (prev, c) →
        t.current before ≠ t.current c →
        postSimplifyChecks t false before s1 =
          Except.error SanityFailure.roundTripMismatch) := by
  refine ⟨rfl, ?_, ?_, ?_⟩
  · intro σ α inst t before s1 s2 h
    unfold postSimplifyChecks
    rw [strictComplicatePhase_fails t h]
  · intro σ α inst t before s1
    rw [postSimplifyChecks_of_strict_ok t false before
      (strictComplicatePhase_skip t s1)]
    unfold driveAndCheckComplicate
    rcases hdr : complicateLoopFrom t s1 s1 65536 with e | ⟨prev, c⟩
    · intro hx
      have he := complicateLoopFrom_error_elim t 65536 s1 s1 e hdr
      rw [he] at hx
      simp at hx
    · show (if t.current before = t.current c then
            complicateStabilityLoop t prev c 15
          else Except.error SanityFailure.roundTripMismatch) ≠
          Except.error SanityFailure.strictComplicateFalse
      by_cases hc : t.current before = t.current c
      · rw [if_pos hc]
        intro hx
        rcases complicateStabilityLoop_error_elim t prev 15 c _ hx with h | h <;>
          simp at h
      · rw [if_neg hc]
        simp
  · intro σ α inst t before s1 prev c h2 hne
    rw [postSimplifyChecks_of_strict_ok t false before
      (strictComplicatePhase_skip t s1),
      driveAndCheckComplicate_of_loop_ok t before h2, if_neg hne]

/-- C6 witness: `strict_complicate_option` instantiated at concrete trees:
one where the post-simplify `complicate()` returns `false` (strict assertion
fires) and one where the round-trip value differs (I2 still checked with
strict mode off). -/
theorem strict_complicate_option_witness :
    postSimplifyChecks constTree true 0 0 =
      Except.error SanityFailure.strictComplicateFalse ∧
    postSimplifyChecks idTree false 2 0 ≠
      Except.error SanityFailure.strictComplicateFalse ∧
    postSimplifyChecks idTree false 2 0 =
      Except.error SanityFailure.roundTripMismatch := by
  refine ⟨?_, ?_, ?_⟩
  · exact strict_complicate_option.2.1 Nat Nat constTree 0 0 0 rfl
  · exact strict_complicate_option.2.2.1 Nat Nat idTree 2 0
  · exact strict_complicate_option.2.2.2 Nat Nat idTree 2 0 0 0 rfl (by decide)

/-- C7: more than 65536 consecutive `true` returns from `complicate()` (or
from `simplify()`, when every intervening per-step check passes) make the
harness abort with the corresponding possible-infinite-loop panic rather than
continue, so such behavior is reported as a failure, never as a successful
run. -/
theorem pathological_loop_detection :
    (∀ (σ α : Type) (t : ValueTree σ α) (prev cur : σ),
        (∀ i ≤ 65536, (t.complicate (complicateIter t cur i)).1 = true) →
        complicateLoopFrom t prev cur 65536 =
          Except.error SanityFailure.complicateLoopPanic) ∧
    (∀ (σ α : Type) [DecidableEq α] (t : ValueTree σ α) (before s1 : σ),
        (∀ i ≤ 65536, (t.complicate (complicateIter t s1 i)).1 = true) →
        postSimplifyChecks t false before s1 =
          Except.error SanityFailure.complicateLoopPanic) ∧
    (∀ (σ α : Type) [DecidableEq α] (t : ValueTree σ α) (strict : Bool)
        (s0 : σ),
        (∀ i ≤ 65536, (t.simplify (simplifyIter t s0 i)).1 = true) →
        (∀ x y, postSimplifyChecks t strict x y = Except.ok ()) →
        checkValueTree t strict s0 =
          Except.error SanityFailure.simplifyLoopPanic) := by
  refine ⟨?_, ?_, ?_⟩
  · intro σ α t prev cur h
    exact complicateLoopFrom_panic_of_true t 65536 prev cur h
  · intro σ α inst t before s1 h
    rw [postSimplifyChecks_of_strict_ok t false before
      (strictComplicatePhase_skip t s1)]
    unfold driveAndCheckComplicate
    rw [complicateLoopFrom_panic_of_true t 65536 s1 s1 h]
  · intro σ α inst t strict s0 h hok
    unfold checkValueTree
    rw [simplifyWalkFrom_panic_of_true t strict 65536 s0 h hok]

/-- C7 witness: `pathological_loop_detection` instantiated at a tree whose
`complicate()` always returns `true` and at a tree whose `simplify()` always
returns `true` while its per-step checks trivially pass. -/
theorem pathological_loop_detection_witness :
    complicateLoopFrom alwaysComplicateTree 0 0 65536 =
      Except.error SanityFailure.complicateLoopPanic ∧
    postSimplifyChecks alwaysComplicateTree false 0 0 =
      Except.error SanityFailure.complicateLoopPanic ∧
    checkValueTree alwaysSimplifyTree false 0 =
      Except.error SanityFailure.simplifyLoopPanic := by
  refine ⟨?_, ?_, ?_⟩
  · exact pathological_loop_detection.1 Nat Nat alwaysComplicateTree 0 0
      (fun i _ => rfl)
  · exact pathological_loop_detection.2.1 Nat Nat alwaysComplicateTree 0 0
      (fun i _ => rfl)
  · exact pathological_loop_detection.2.2 Nat Nat alwaysSimplifyTree false 0
      (fun i _ => rfl) (fun x y => rfl)

/-- C8: type erasure preserves behavior: `boxed()` (and `sboxed()`, which is
the identical construction) returns `Ok` exactly when the inner strategy
does — wrapping the tree on success and passing the same error string through
on failure — and the boxed tree's `current`, `simplify` and `complicate`
delegate unchanged to the underlying tree. -/
theorem boxed_observational_equiv :
    (∀ (ρ σ α : Type) (S : Strategy ρ σ α) (r : ρ) (v : σ) (r' : ρ),
        S.new_value r = (Except.ok v, r') →
        (Strategy.boxed S).new_value r = (Except.ok ⟨v⟩, r') ∧
        (Strategy.sboxed S).new_value r = (Except.ok ⟨v⟩, r')) ∧
    (∀ (ρ σ α : Type) (S : Strategy ρ σ α) (r : ρ) (e : String) (r' : ρ),
        S.new_value r = (Except.error e, r') →
        (Strategy.boxed S).new_value r = (Except.error e, r') ∧
        (Strategy.sboxed S).new_value r = (Except.error e, r')) ∧
    (∀ (σ α : Type) (t : ValueTree σ α) (s : σ),
        (ValueTree.boxedTree t).current ⟨s⟩ = t.current s ∧
        (ValueTree.boxedTree t).simplify ⟨s⟩ =
          ((t.simplify s).1, ⟨(t.simplify s).2⟩) ∧
        (ValueTree.boxedTree t).complicate ⟨s⟩ =
          ((t.complicate s).1, ⟨(t.complicate s).2⟩)) ∧
    (∀ (ρ σ α : Type) (S : Strategy ρ σ α),
        Strategy.sboxed S = Strategy.boxed S) := by
  exact ⟨fun ρ σ α S r v r' h =>
      ⟨boxed_new_value_ok S h, boxed_new_value_ok S h⟩,
    fun ρ σ α S r e r' h =>
      ⟨boxed_new_value_err S h, boxed_new_value_err S h⟩,
    fun σ α t s => ⟨rfl, rfl, rfl⟩,
    fun ρ σ α S => rfl⟩

/-- C8 witness: `boxed_observational_equiv` instantiated at a concrete
succeeding strategy and a concrete aborting strategy. -/
theorem boxed_observational_equiv_witness :
    (Strategy.boxed okStrategy).new_value 0 = (Except.ok ⟨0⟩, 1) ∧
    (Strategy.sboxed okStrategy).new_value 0 = (Except.ok ⟨0⟩, 1) ∧
    (Strategy.boxed failStrategy).new_value 2 =
      (Except.error "filter rejection budget exhausted", 2) ∧
    (Strategy.sboxed failStrategy).new_value 2 =
      (Except.error "filter rejection budget exhausted", 2) := by
  obtain ⟨h1, h2⟩ := boxed_observational_equiv.1 Nat Nat Nat okStrategy 0 0 1 rfl
  obtain ⟨h3, h4⟩ := boxed_observational_equiv.2.1 Nat Nat Nat failStrategy 2
    "filter rejection budget exhausted" 2 rfl
  exact ⟨h1, h2, h3, h4⟩

/-- C9: the `Arbitrary` strategy for `Result<A, ParseError>` produces only
`Ok` values — `current` is always `Ok` of the inner draw, and shrinking
(`simplify`/`complicate`) as well as `new_value` delegate unchanged to `A`'s
strategy, so every reachable state still exposes an `Ok`; indeed every value
of the type is `Ok` since `ParseError` is uninhabited.  Symmetrically the
strategy for `Result<ParseError, A>` produces only `Err` values. -/
theorem result_parse_error_only_ok :
    (∀ (ρ σ α : Type) (S : Strategy ρ σ α) (s : σ),
        (resultOkArbitrary S).tree.current s =
          RustResult.ok (S.tree.current s)) ∧
    (∀ (ρ σ α : Type) (S : Strategy ρ σ α),
        (resultOkArbitrary S).tree.simplify = S.tree.simplify ∧
        (resultOkArbitrary S).tree.complicate = S.tree.complicate ∧
        (resultOkArbitrary S).new_value = S.new_value) ∧
    (∀ (α : Type) (v : RustResult α ParseError), ∃ a, v = RustResult.ok a) ∧
    (∀ (ρ σ α : Type) (S : Strategy ρ σ α) (s : σ),
        (resultErrArbitrary S).tree.current s =
          RustResult.err (S.tree.current s)) ∧
    (∀ (α : Type) (v : RustResult ParseError α), ∃ a, v = RustResult.err a) := by
  refine ⟨fun ρ σ α S s => rfl, fun ρ σ α S => ⟨rfl, rfl, rfl⟩, ?_,
    fun ρ σ α S s => rfl, ?_⟩
  · intro α v
    cases v with
    | ok a => exact ⟨a, rfl⟩
    | err e => cases e
  · intro α v
    cases v with
    | ok p => cases p
    | err a => exact ⟨a, rfl⟩

/-- C10: `check_strategy_sanity` only works for infallible strategies: if a
trial's `new_value` returns an `Err`, the harness's `unwrap()` panics —
modelled as the `unwrapPanic` outcome carrying the abort string — instead of
treating the abort as recoverable. -/
theorem sanity_unwraps_new_value :
    (∀ (ρ σ α : Type) [DecidableEq α] (S : Strategy ρ σ α)
        (options : Option CheckStrategySanityOptions) (r : ρ) (e : String)
        (r' : ρ),
        S.new_value r = (Except.error e, r') →
        check_strategy_sanity S options r =
          Except.error (SanityFailure.unwrapPanic e)) ∧
    (∀ (ρ σ α : Type) [DecidableEq α] (S : Strategy ρ σ α) (strict : Bool)
        (n : Nat) (r : ρ) (e : String) (r' : ρ),
        S.new_value r = (Except.error e, r') →
        sanityTrials S strict (n + 1) r =
          Except.error (SanityFailure.unwrapPanic e)) := by
  constructor
  · intro ρ σ α inst S options r e r' h
    exact sanityTrials_err S _ 1023 h
  · intro ρ σ α inst S strict n r e r' h
    exact sanityTrials_err S strict n h

/-- C10 witness: `sanity_unwraps_new_value` instantiated at a concrete
always-aborting strategy. -/
theorem sanity_unwraps_new_value_witness :
    check_strategy_sanity failStrategy none 0 =
      Except.error
        (SanityFailure.unwrapPanic "filter rejection budget exhausted") ∧
    sanityTrials failStrategy false 5 0 =
      Except.error
        (SanityFailure.unwrapPanic "filter rejection budget exhausted") := by
  exact ⟨sanity_unwraps_new_value.1 Nat Nat Nat failStrategy none 0
      "filter rejection budget exhausted" 0 rfl,
    sanity_unwraps_new_value.2 Nat Nat Nat failStrategy false 4 0
      "filter rejection budget exhausted" 0 rfl⟩

end Proptest
